import Mathlib

/-!
Verification of `src/subscription_manager/healinglib.py`
(`HealingUpdateAction.perform`), the entitlement auto-healing cycle.

The cycle is embedded as a pure function over an `Env` describing the
behaviour of the external collaborators for one cycle (account lookup,
validity oracle, plugin hooks, bind call, certificate refresh).  Each
collaborator either returns a value or raises, modelled with `Except`.
Besides its result, the embedded `perform` produces the ordered trace of
observable events (hook dispatches, bind calls, certificate refresh,
consultation of the tomorrow check), so that ordering and counting
properties can be stated directly.
-/

namespace Healinglib

/-- Instants (`datetime.datetime` values), as seconds on an integer line. -/
abbrev Time := Int

/-- One day, the `datetime.timedelta(days=1)` added at line 92. -/
def oneDay : Time := 86400

/-- An entitlement grant (one element of the list `uep.bind` returns). -/
abbrev Grant := Nat

/-- Exceptions the collaborators may raise.  `serviceError` stands for
`rhsm.connection`-level failures of remote calls, `hookError` for an
exception escaping a plugin hook, `generic` for anything else. -/
inductive Err where
  | serviceError : Nat → Err
  | hookError : Nat → Err
  | generic : Nat → Err
deriving DecidableEq, Repr

/-- Observable events of one cycle, in execution order:
dispatch of `pre_auto_attach`, a `uep.bind(uuid, instant)` call, dispatch
of `post_auto_attach` with the entitlement data the bind returned,
the `EntCertActionInvoker.update()` certificate refresh, and evaluation
of the tomorrow check (lines 116-121: consulting `cs.compliant_until`
against `tomorrow`). -/
inductive Event where
  | preHook : Event
  | bindCall : Time → Event
  | postHook : List Grant → Event
  | certRefresh : Event
  | tomorrowCheck : Event
deriving DecidableEq, Repr

/-- The `entcertlib.EntCertUpdateReport` record: the per-cycle report,
with the grants it records and its `_exceptions` list (the only fields
`healinglib` touches). -/
structure EntCertUpdateReport where
  grants : List Grant
  exceptions : List Err
deriving DecidableEq, Repr

/-- The fresh report built in `HealingUpdateAction.__init__` (line 76). -/
def emptyReport : EntCertUpdateReport := ⟨[], []⟩

/-- The behaviour of the external collaborators during one cycle.
`getConsumer` yields the consumer record, reduced to its `autoheal`
field: `none` when the key is absent, `some b` for its truthiness.
`isValid` is `cs.is_valid()`, `compliantUntil` is `cs.compliant_until`
(a plain attribute read), `bind` is `uep.bind(uuid, ·)`, the two hook
fields are `plugin_manager.run` on the respective hook, and
`certUpdate` is `EntCertActionInvoker().update()`. -/
structure Env where
  getConsumer : Except Err (Option Bool)
  now : Time
  isValid : Except Err Bool
  compliantUntil : Option Time
  runPreHook : Except Err Unit
  bind : Time → Except Err (List Grant)
  runPostHook : List Grant → Except Err Unit
  certUpdate : Except Err EntCertUpdateReport

/-- The condition of line 85: `"autoheal" not in consumer or not
consumer["autoheal"]` inverted, i.e. the key is present and truthy. -/
def autohealEnabled : Option Bool → Bool
  | none => false
  | some b => b

/-- The remediation sequence shared by the two branches (lines 105-112
and 123-126): dispatch `pre_auto_attach`, call `uep.bind(uuid, instant)`,
dispatch `post_auto_attach` with the returned entitlement data, then run
the certificate refresh and take its report.  Returns the report (or the
first exception) together with the trace of events, each event emitted
when the corresponding call is made. -/
def autoAttach (env : Env) (instant : Time) :
    Except Err EntCertUpdateReport × List Event :=
  match env.runPreHook with
  | .error e => (.error e, [.preHook])
  | .ok _ =>
    match env.bind instant with
    | .error e => (.error e, [.preHook, .bindCall instant])
    | .ok ents =>
      match env.runPostHook ents with
      | .error e => (.error e, [.preHook, .bindCall instant, .postHook ents])
      | .ok _ =>
        match env.certUpdate with
        | .error e =>
            (.error e,
             [.preHook, .bindCall instant, .postHook ents, .certRefresh])
        | .ok r =>
            (.ok r,
             [.preHook, .bindCall instant, .postHook ents, .certRefresh])

/-- The body of the `try` block (lines 89-135).  `.ok r` means the block
reached its end with `self.report = r`; `.error e` means the exception
`e` escaped the block.  The today branch runs when `cs.is_valid()` is
false; otherwise the tomorrow check (lines 116-121) consults
`cs.compliant_until`, healing for `tomorrow` exactly when
`tomorrow > cs.compliant_until`. -/
def tryBody (env : Env) : Except Err EntCertUpdateReport × List Event :=
  match env.isValid with
  | .error e => (.error e, [])
  | .ok false => autoAttach env env.now
  | .ok true =>
    match env.compliantUntil with
    | none => (.ok emptyReport, [.tomorrowCheck])
    | some cu =>
      if env.now + oneDay > cu then
        match autoAttach env (env.now + oneDay) with
        | (r, tr) => (r, .tomorrowCheck :: tr)
      else
        (.ok emptyReport, [.tomorrowCheck])

/-- What `perform` hands back to its caller: the literal `0` of line 87
(`skipped`), a report object (`report`), or an exception propagated out
of `perform` (`raised`). -/
inductive PerformResult where
  | skipped : PerformResult
  | report : EntCertUpdateReport → PerformResult
  | raised : Err → PerformResult
deriving DecidableEq, Repr

/-- The embedding of `HealingUpdateAction.perform` (lines 79-144).
The account lookup
(line 83) happens before the `try` block, so its exception propagates to
the caller.  A disabled or absent `autoheal` flag returns `0` (line 87).
Inside the `try`, an escaping exception is appended to the current
`self.report._exceptions` and that report is returned (lines 137-141);
since every fallible call precedes the assignment of `self.report`, the
report the handler mutates is the initial empty one. -/
def perform (env : Env) : PerformResult × List Event :=
  match env.getConsumer with
  | .error e => (.raised e, [])
  | .ok consumer =>
    if autohealEnabled consumer then
      match tryBody env with
      | (.error e, tr) =>
          (.report ⟨emptyReport.grants, emptyReport.exceptions ++ [e]⟩, tr)
      | (.ok r, tr) => (.report r, tr)
    else
      (.skipped, [])

/-- Recognises a bind event. -/
def isBindEvent : Event → Bool
  | .bindCall _ => true
  | _ => false

/-- Recognises a hook-dispatch event. -/
def isHookEvent : Event → Bool
  | .preHook => true
  | .postHook _ => true
  | _ => false

/-- Number of bind calls recorded in a trace. -/
def countBinds (tr : List Event) : Nat := (tr.filter isBindEvent).length

/-- Modelled from the spec: `entcertlib.EntCertActionInvoker.update` and
`EntCertUpdateReport`'s construction are not under `src/` (only this
caller is).  Per the spec, the report of a cycle that healed records the
grants received from the remediation call and no errors. -/
def certUpdateModel (ents : List Grant) : EntCertUpdateReport := ⟨ents, []⟩

/-! ### Concrete cycle environments -/

/-- Cycle: enabled, invalid today, `pre_auto_attach` raises. -/
def envC1cex : Env :=
  ⟨.ok (some true), 0, .ok false, none, .error (.hookError 0),
   fun _ => .ok [1], fun _ => .ok (), .ok emptyReport⟩

/-- Cycle: enabled, invalid today, every collaborator succeeds. -/
def envC1wit : Env :=
  ⟨.ok (some true), 100, .ok false, none, .ok (),
   fun _ => .ok [2], fun _ => .ok (), .ok ⟨[2], []⟩⟩

/-- Cycle: enabled, invalid today, every collaborator succeeds. -/
def envC2wit : Env :=
  ⟨.ok (some true), 0, .ok false, none, .ok (),
   fun _ => .ok [], fun _ => .ok (), .ok emptyReport⟩

/-- Cycle: enabled, valid today but expiring, `pre_auto_attach` raises. -/
def envC3cex : Env :=
  ⟨.ok (some true), 0, .ok true, some 0, .error (.hookError 1),
   fun _ => .ok [1], fun _ => .ok (), .ok emptyReport⟩

/-- Cycle: enabled, valid today, coverage lapses within 24 hours,
every collaborator succeeds. -/
def envC3wit : Env :=
  ⟨.ok (some true), 1704844800, .ok true, some 1704888000, .ok (),
   fun _ => .ok [7], fun _ => .ok (), .ok ⟨[7], []⟩⟩

/-- Cycle: the consumer record has no `autoheal` key. -/
def envC4cex : Env :=
  ⟨.ok none, 0, .ok false, none, .ok (),
   fun _ => .ok [], fun _ => .ok (), .ok emptyReport⟩

/-- Cycle: the consumer record has `autoheal` set to false. -/
def envC4wit : Env :=
  ⟨.ok (some false), 0, .ok false, none, .ok (),
   fun _ => .ok [], fun _ => .ok (), .ok emptyReport⟩

/-- Cycle: the account lookup itself raises a service error. -/
def envC5cex : Env :=
  ⟨.error (.serviceError 7), 0, .ok false, none, .ok (),
   fun _ => .ok [], fun _ => .ok (), .ok emptyReport⟩

/-- Cycle: enabled, `cs.is_valid()` raises. -/
def envC5wit : Env :=
  ⟨.ok (some true), 0, .error (.generic 3), none, .ok (),
   fun _ => .ok [], fun _ => .ok (), .ok emptyReport⟩

/-- Cycle: enabled, invalid today, the bind raises a service error. -/
def envC6wit : Env :=
  ⟨.ok (some true), 0, .ok false, none, .ok (),
   fun _ => .error (.serviceError 42), fun _ => .ok (), .ok emptyReport⟩

/-- Cycle: enabled, invalid today, the bind succeeds but
`post_auto_attach` raises. -/
def envC7cex : Env :=
  ⟨.ok (some true), 0, .ok false, none, .ok (),
   fun _ => .ok [5], fun _ => .error (.hookError 1), .ok emptyReport⟩

/-- Cycle: enabled, invalid today, every collaborator succeeds. -/
def envC7wit : Env :=
  ⟨.ok (some true), 0, .ok false, none, .ok (),
   fun _ => .ok [3], fun _ => .ok (), .ok emptyReport⟩

/-- Cycle: enabled, valid today, no `compliant_until` date. -/
def envC8wit : Env :=
  ⟨.ok (some true), 0, .ok true, none, .ok (),
   fun _ => .ok [], fun _ => .ok (), .ok emptyReport⟩

/-- Cycle at `now = 2024-01-10T00:00:00Z` (epoch 1704844800): enabled,
invalid today, bind returns two grants, every collaborator succeeds. -/
def envC9wit : Env :=
  ⟨.ok (some true), 1704844800, .ok false, none, .ok (),
   fun _ => .ok [3, 4], fun _ => .ok (), .ok (certUpdateModel [3, 4])⟩

/-- Cycle: enabled, invalid today, `pre_auto_attach` raises. -/
def envC10wit : Env :=
  ⟨.ok (some true), 0, .ok false, none, .error (.hookError 9),
   fun _ => .ok [1], fun _ => .ok (), .ok emptyReport⟩

/-! ### Evaluation lemmas for the individual execution paths -/

theorem autoAttach_pre_error (env : Env) (t : Time) (e : Err)
    (hpre : env.runPreHook = .error e) :
    autoAttach env t = (.error e, [.preHook]) := by
  simp [autoAttach, hpre]

theorem autoAttach_bind_error (env : Env) (t : Time) (e : Err)
    (hpre : env.runPreHook = .ok ()) (hbind : env.bind t = .error e) :
    autoAttach env t = (.error e, [.preHook, .bindCall t]) := by
  simp [autoAttach, hpre, hbind]

theorem autoAttach_post_error (env : Env) (t : Time) (ents : List Grant)
    (e : Err) (hpre : env.runPreHook = .ok ()) (hbind : env.bind t = .ok ents)
    (hpost : env.runPostHook ents = .error e) :
    autoAttach env t = (.error e, [.preHook, .bindCall t, .postHook ents]) := by
  simp [autoAttach, hpre, hbind, hpost]

theorem autoAttach_ok (env : Env) (t : Time) (ents : List Grant)
    (r : EntCertUpdateReport) (hpre : env.runPreHook = .ok ())
    (hbind : env.bind t = .ok ents) (hpost : env.runPostHook ents = .ok ())
    (hupd : env.certUpdate = .ok r) :
    autoAttach env t =
      (.ok r, [.preHook, .bindCall t, .postHook ents, .certRefresh]) := by
  simp [autoAttach, hpre, hbind, hpost, hupd]

theorem tryBody_isValid_error (env : Env) (e : Err)
    (hv : env.isValid = .error e) : tryBody env = (.error e, []) := by
  simp [tryBody, hv]

theorem tryBody_invalid (env : Env) (hv : env.isValid = .ok false) :
    tryBody env = autoAttach env env.now := by
  simp [tryBody, hv]

theorem tryBody_until_none (env : Env) (hv : env.isValid = .ok true)
    (hcu : env.compliantUntil = none) :
    tryBody env = (.ok emptyReport, [.tomorrowCheck]) := by
  simp [tryBody, hv, hcu]

theorem tryBody_tomorrow (env : Env) (cu : Time) (hv : env.isValid = .ok true)
    (hcu : env.compliantUntil = some cu) (hgap : env.now + oneDay > cu) :
    tryBody env = ((autoAttach env (env.now + oneDay)).1,
      .tomorrowCheck :: (autoAttach env (env.now + oneDay)).2) := by
  simp [tryBody, hv, hcu, hgap]

theorem tryBody_covered (env : Env) (cu : Time) (hv : env.isValid = .ok true)
    (hcu : env.compliantUntil = some cu) (hgap : ¬env.now + oneDay > cu) :
    tryBody env = (.ok emptyReport, [.tomorrowCheck]) := by
  simp [tryBody, hv, hcu, hgap]

theorem perform_lookup_error (env : Env) (e : Err)
    (hc : env.getConsumer = .error e) : perform env = (.raised e, []) := by
  simp [perform, hc]

theorem perform_disabled (env : Env) (c : Option Bool)
    (hc : env.getConsumer = .ok c) (hoff : autohealEnabled c = false) :
    perform env = (.skipped, []) := by
  simp [perform, hc, hoff]

theorem perform_enabled_error (env : Env) (e : Err) (tr : List Event)
    (hc : env.getConsumer = .ok (some true))
    (ht : tryBody env = (.error e, tr)) :
    perform env = (.report ⟨[], [e]⟩, tr) := by
  simp [perform, hc, ht, autohealEnabled, emptyReport]

theorem perform_enabled_ok (env : Env) (r : EntCertUpdateReport)
    (tr : List Event) (hc : env.getConsumer = .ok (some true))
    (ht : tryBody env = (.ok r, tr)) :
    perform env = (.report r, tr) := by
  simp [perform, hc, ht, autohealEnabled]

/-! ### Trace-shape lemmas -/

theorem autoAttach_trace_shape (env : Env) (t : Time) :
    (autoAttach env t).2 = [.preHook] ∨
    (autoAttach env t).2 = [.preHook, .bindCall t] ∨
    (∃ ents, (autoAttach env t).2 = [.preHook, .bindCall t, .postHook ents]) ∨
    (∃ ents, (autoAttach env t).2 =
      [.preHook, .bindCall t, .postHook ents, .certRefresh]) := by
  unfold autoAttach
  rcases hpre : env.runPreHook with e | u
  · simp
  · rcases hbind : env.bind t with e | ents
    · simp
    · rcases hpost : env.runPostHook ents with e | v
      · exact Or.inr (Or.inr (Or.inl ⟨ents, by simp [hpost]⟩))
      · rcases hupd : env.certUpdate with e | r
        · exact Or.inr (Or.inr (Or.inr ⟨ents, by simp [hpost, hupd]⟩))
        · exact Or.inr (Or.inr (Or.inr ⟨ents, by simp [hpost, hupd]⟩))

theorem countBinds_autoAttach (env : Env) (t : Time) :
    countBinds (autoAttach env t).2 ≤ 1 := by
  rcases autoAttach_trace_shape env t with h | h | ⟨ents, h⟩ | ⟨ents, h⟩ <;>
    simp [h, countBinds, isBindEvent]

theorem autoAttach_no_tomorrow (env : Env) (t : Time) :
    Event.tomorrowCheck ∉ (autoAttach env t).2 := by
  rcases autoAttach_trace_shape env t with h | h | ⟨ents, h⟩ | ⟨ents, h⟩ <;>
    simp [h]

theorem autoAttach_bind_instant (env : Env) (t s : Time)
    (h : Event.bindCall s ∈ (autoAttach env t).2) : s = t := by
  rcases autoAttach_trace_shape env t with hs | hs | ⟨ents, hs⟩ | ⟨ents, hs⟩ <;>
    simp [hs] at h <;> tauto

theorem tryBody_trace_shape (env : Env) :
    (tryBody env).2 = [] ∨
    (tryBody env).2 = (autoAttach env env.now).2 ∨
    (tryBody env).2 = [.tomorrowCheck] ∨
    (tryBody env).2 =
      .tomorrowCheck :: (autoAttach env (env.now + oneDay)).2 := by
  unfold tryBody
  rcases hv : env.isValid with e | b
  · simp
  · rcases b with _ | _
    · simp
    · rcases hcu : env.compliantUntil with _ | cu
      · simp
      · by_cases hgap : env.now + oneDay > cu
        · simp [hgap]
        · simp [hgap]

theorem perform_trace_eq (env : Env) :
    (perform env).2 = [] ∨ (perform env).2 = (tryBody env).2 := by
  unfold perform
  rcases hc : env.getConsumer with e | c
  · simp
  · rcases hoff : autohealEnabled c with _ | _
    · simp [hoff]
    · rcases ht : tryBody env with ⟨res, tr⟩
      rcases res with e | r <;> simp [hoff, ht]

theorem autoAttach_upd_error (env : Env) (t : Time) (ents : List Grant)
    (e : Err) (hpre : env.runPreHook = .ok ()) (hbind : env.bind t = .ok ents)
    (hpost : env.runPostHook ents = .ok ())
    (hupd : env.certUpdate = .error e) :
    autoAttach env t =
      (.error e, [.preHook, .bindCall t, .postHook ents, .certRefresh]) := by
  simp [autoAttach, hpre, hbind, hpost, hupd]

theorem autoAttach_trace_post_ok (env : Env) (t : Time) (ents : List Grant)
    (hpre : env.runPreHook = .ok ()) (hbind : env.bind t = .ok ents)
    (hpost : env.runPostHook ents = .ok ()) :
    (autoAttach env t).2 =
      [.preHook, .bindCall t, .postHook ents, .certRefresh] := by
  rcases hupd : env.certUpdate with e | r
  · rw [autoAttach_upd_error env t ents e hpre hbind hpost hupd]
  · rw [autoAttach_ok env t ents r hpre hbind hpost hupd]

theorem autoAttach_bind_ok_trace (env : Env) (t : Time) (ents : List Grant)
    (hpre : env.runPreHook = .ok ()) (hbind : env.bind t = .ok ents) :
    countBinds (autoAttach env t).2 = 1 ∧
    (autoAttach env t).2.take 3 = [.preHook, .bindCall t, .postHook ents] := by
  rcases hpost : env.runPostHook ents with e | v
  · rw [autoAttach_post_error env t ents e hpre hbind hpost]
    simp [countBinds, isBindEvent]
  · obtain ⟨⟩ := v
    rw [autoAttach_trace_post_ok env t ents hpre hbind hpost]
    simp [countBinds, isBindEvent]

theorem perform_enabled_trace (env : Env)
    (hc : env.getConsumer = .ok (some true)) :
    (perform env).2 = (tryBody env).2 := by
  rcases ht : tryBody env with ⟨res, tr⟩
  rcases res with e | r
  · rw [perform_enabled_error env e tr hc ht]
  · rw [perform_enabled_ok env r tr hc ht]

theorem autohealEnabled_iff (c : Option Bool) :
    autohealEnabled c = true ↔ c = some true := by
  cases c with
  | none => simp [autohealEnabled]
  | some b => cases b <;> simp [autohealEnabled]

/-! ### The claims -/

/-- C2: every cycle issues at most one bind call, and when the today
check fires (`cs.is_valid()` returns false) the tomorrow check is never
evaluated: the two remediation branches are mutually exclusive. -/
theorem c2_at_most_one_bind (env : Env) :
    countBinds (perform env).2 ≤ 1 ∧
    (env.isValid = .ok false → Event.tomorrowCheck ∉ (perform env).2) := by
  constructor
  · rcases perform_trace_eq env with h | h
    · simp [h, countBinds]
    · rw [h]
      rcases tryBody_trace_shape env with ht | ht | ht | ht
      · simp [ht, countBinds]
      · rw [ht]; exact countBinds_autoAttach env env.now
      · simp [ht, countBinds, isBindEvent]
      · rw [ht]
        have := countBinds_autoAttach env (env.now + oneDay)
        simp only [countBinds, List.filter] at this ⊢
        simpa [isBindEvent] using this
  · intro hv
    rcases perform_trace_eq env with h | h
    · simp [h]
    · rw [h, tryBody_invalid env hv]
      exact autoAttach_no_tomorrow env env.now

/-- C2 witness: the bound instantiated on a concrete invalid-today
cycle, the mutual-exclusion hypothesis discharged there. -/
theorem c2_witness :
    countBinds (perform envC2wit).2 ≤ 1 ∧
    Event.tomorrowCheck ∉ (perform envC2wit).2 :=
  ⟨(c2_at_most_one_bind envC2wit).1, (c2_at_most_one_bind envC2wit).2 rfl⟩

/-- C4 counterexample: with the `autoheal` key absent, `perform`
returns the literal `0` of line 87 (`skipped`), not an (empty)
`EntCertUpdateReport` object as the claim states. -/
theorem c4_counterexample :
    envC4cex.getConsumer = .ok none ∧
    (perform envC4cex).1 = PerformResult.skipped ∧
    (perform envC4cex).1 ≠ PerformResult.report emptyReport :=
  ⟨rfl, rfl, by decide⟩

/-- C4 (amended): a cycle with the auto-heal flag false or absent makes
no bind call, fires no hooks, and returns the no-op sentinel `0`
(`skipped`) rather than a report object; its trace is empty. -/
theorem c4_disabled_skips (env : Env) (c : Option Bool)
    (hc : env.getConsumer = .ok c) (hoff : autohealEnabled c = false) :
    perform env = (.skipped, []) ∧
    countBinds (perform env).2 = 0 ∧
    (perform env).2.filter isHookEvent = [] := by
  have h := perform_disabled env c hc hoff
  refine ⟨h, ?_, ?_⟩ <;> simp [h, countBinds]

/-- C4 witness: the disabled-cycle behaviour at a concrete environment
whose `autoheal` flag is present but false. -/
theorem c4_witness :
    perform envC4wit = (.skipped, []) ∧
    countBinds (perform envC4wit).2 = 0 ∧
    (perform envC4wit).2.filter isHookEvent = [] :=
  c4_disabled_skips envC4wit (some false) rfl rfl

/-- C6: when an enabled cycle is invalid today, the pre hook succeeds
and the bind raises `ServiceError`, `perform` returns (rather than
raises) a report whose error list is exactly that `ServiceError` and
whose grants are empty; the trace shows the pre hook and the failed
bind and nothing after them. -/
theorem c6_bind_service_error (env : Env) (c : Nat)
    (hc : env.getConsumer = .ok (some true))
    (hv : env.isValid = .ok false)
    (hpre : env.runPreHook = .ok ())
    (hbind : env.bind env.now = .error (.serviceError c)) :
    perform env =
      (.report ⟨[], [Err.serviceError c]⟩,
       [.preHook, .bindCall env.now]) := by
  have ht : tryBody env =
      (.error (Err.serviceError c), [.preHook, .bindCall env.now]) := by
    rw [tryBody_invalid env hv,
      autoAttach_bind_error env env.now (Err.serviceError c) hpre hbind]
  exact perform_enabled_error env (Err.serviceError c)
    [.preHook, .bindCall env.now] hc ht

/-- C6 witness: the failed-bind behaviour at a concrete cycle whose
bind raises `ServiceError 42`. -/
theorem c6_witness :
    perform envC6wit =
      (.report ⟨[], [Err.serviceError 42]⟩,
       [.preHook, .bindCall envC6wit.now]) :=
  c6_bind_service_error envC6wit 42 rfl rfl rfl rfl

/-- C8: when an enabled cycle is valid today and `cs.compliant_until`
is `None`, no bind call occurs, no hooks fire, and the returned report
is the initial empty one (no error recorded); only the tomorrow check
is evaluated. -/
theorem c8_no_compliant_until (env : Env)
    (hc : env.getConsumer = .ok (some true))
    (hv : env.isValid = .ok true)
    (hcu : env.compliantUntil = none) :
    perform env = (.report emptyReport, [.tomorrowCheck]) ∧
    countBinds (perform env).2 = 0 ∧
    (perform env).2.filter isHookEvent = [] := by
  have h := perform_enabled_ok env emptyReport [.tomorrowCheck] hc
    (tryBody_until_none env hv hcu)
  refine ⟨h, ?_, ?_⟩ <;> simp [h, countBinds, isBindEvent, isHookEvent]

/-- C8 witness: the anomalous valid-today-no-expiry behaviour at a
concrete cycle. -/
theorem c8_witness :
    perform envC8wit = (.report emptyReport, [.tomorrowCheck]) ∧
    countBinds (perform envC8wit).2 = 0 ∧
    (perform envC8wit).2.filter isHookEvent = [] :=
  c8_no_compliant_until envC8wit rfl rfl rfl

/-- C10: when a remediation branch is taken (today branch, or tomorrow
branch because coverage lapses within 24 hours) and `pre_auto_attach`
raises, no bind call is made, the certificate refresh is not invoked,
and `perform` returns a report whose error list is exactly that
exception and whose grants are empty. -/
theorem c10_pre_hook_failure (env : Env) (e : Err)
    (hc : env.getConsumer = .ok (some true))
    (hpre : env.runPreHook = .error e) :
    (env.isValid = .ok false →
      perform env = (.report ⟨[], [e]⟩, [.preHook]) ∧
      countBinds (perform env).2 = 0 ∧
      Event.certRefresh ∉ (perform env).2) ∧
    (∀ cu, env.isValid = .ok true → env.compliantUntil = some cu →
      env.now + oneDay > cu →
      perform env = (.report ⟨[], [e]⟩, [.tomorrowCheck, .preHook]) ∧
      countBinds (perform env).2 = 0 ∧
      Event.certRefresh ∉ (perform env).2) := by
  constructor
  · intro hv
    have ht : tryBody env = (.error e, [.preHook]) := by
      rw [tryBody_invalid env hv, autoAttach_pre_error env env.now e hpre]
    have h := perform_enabled_error env e [.preHook] hc ht
    refine ⟨h, ?_, ?_⟩ <;> simp [h, countBinds, isBindEvent]
  · intro cu hv hcu hgap
    have ht : tryBody env = (.error e, [.tomorrowCheck, .preHook]) := by
      rw [tryBody_tomorrow env cu hv hcu hgap,
        autoAttach_pre_error env (env.now + oneDay) e hpre]
    have h := perform_enabled_error env e [.tomorrowCheck, .preHook] hc ht
    refine ⟨h, ?_, ?_⟩ <;> simp [h, countBinds, isBindEvent]

/-- C10 witness: the failed-pre-hook behaviour on a concrete
invalid-today cycle. -/
theorem c10_witness :
    perform envC10wit = (.report ⟨[], [Err.hookError 9]⟩, [.preHook]) ∧
    countBinds (perform envC10wit).2 = 0 ∧
    Event.certRefresh ∉ (perform envC10wit).2 :=
  (c10_pre_hook_failure envC10wit (Err.hookError 9) rfl rfl).1 rfl

/-- C1 counterexample: an enabled cycle that is invalid today but whose
`pre_auto_attach` dispatch raises issues zero bind calls, not exactly
one as the claim states for every such cycle. -/
theorem c1_counterexample :
    envC1cex.getConsumer = .ok (some true) ∧
    envC1cex.isValid = .ok false ∧
    countBinds (perform envC1cex).2 = 0 :=
  ⟨rfl, rfl, rfl⟩

/-- C1 (amended): in every enabled cycle that is invalid today the
tomorrow check is never evaluated, at most one bind occurs and any bind
uses instant `now`; provided the pre hook dispatch and the bind succeed,
exactly one bind occurs and the trace starts with the pre hook, the
bind at `now`, and the post hook carrying the grants the bind
returned, in that order. -/
theorem c1_enabled_invalid_today (env : Env)
    (hc : env.getConsumer = .ok (some true))
    (hv : env.isValid = .ok false) :
    Event.tomorrowCheck ∉ (perform env).2 ∧
    countBinds (perform env).2 ≤ 1 ∧
    (∀ s, Event.bindCall s ∈ (perform env).2 → s = env.now) ∧
    (∀ ents, env.runPreHook = .ok () → env.bind env.now = .ok ents →
      countBinds (perform env).2 = 1 ∧
      (perform env).2.take 3 =
        [.preHook, .bindCall env.now, .postHook ents]) := by
  have htr : (perform env).2 = (autoAttach env env.now).2 := by
    rw [perform_enabled_trace env hc, tryBody_invalid env hv]
  refine ⟨?_, ?_, ?_, ?_⟩
  · rw [htr]; exact autoAttach_no_tomorrow env env.now
  · rw [htr]; exact countBinds_autoAttach env env.now
  · intro s hs
    rw [htr] at hs
    exact autoAttach_bind_instant env env.now s hs
  · intro ents hpre hbind
    rw [htr]
    exact autoAttach_bind_ok_trace env env.now ents hpre hbind

/-- C1 witness: the amended behaviour at a concrete invalid-today
cycle where every collaborator succeeds. -/
theorem c1_witness :
    Event.tomorrowCheck ∉ (perform envC1wit).2 ∧
    countBinds (perform envC1wit).2 = 1 ∧
    (perform envC1wit).2.take 3 =
      [.preHook, .bindCall envC1wit.now, .postHook [2]] :=
  ⟨(c1_enabled_invalid_today envC1wit rfl rfl).1,
   ((c1_enabled_invalid_today envC1wit rfl rfl).2.2.2 [2] rfl rfl).1,
   ((c1_enabled_invalid_today envC1wit rfl rfl).2.2.2 [2] rfl rfl).2⟩

/-- C3 counterexample: an enabled cycle that is valid today with
coverage lapsing within 24 hours, but whose `pre_auto_attach` dispatch
raises, issues zero bind calls, not exactly one as the claim states for
every such cycle. -/
theorem c3_counterexample :
    envC3cex.getConsumer = .ok (some true) ∧
    envC3cex.isValid = .ok true ∧
    envC3cex.compliantUntil = some 0 ∧
    envC3cex.now + oneDay > 0 ∧
    countBinds (perform envC3cex).2 = 0 :=
  ⟨rfl, rfl, rfl, by decide, rfl⟩

/-- C3 (amended): in every enabled cycle that is valid today with
`compliant_until` present: if `now + 24h ≤ compliant_until` then no
bind occurs and zero hooks fire (only the tomorrow check runs and the
empty report is returned); if `now + 24h > compliant_until` then at
most one bind occurs and any bind uses instant `now + 24h`, and
provided the pre hook dispatch and the bind succeed, exactly one bind
occurs with the pre hook before it and the post hook after it carrying
the grants the bind returned. -/
theorem c3_tomorrow_check (env : Env) (cu : Time)
    (hc : env.getConsumer = .ok (some true))
    (hv : env.isValid = .ok true)
    (hcu : env.compliantUntil = some cu) :
    (¬env.now + oneDay > cu →
      perform env = (.report emptyReport, [.tomorrowCheck])) ∧
    (env.now + oneDay > cu →
      countBinds (perform env).2 ≤ 1 ∧
      (∀ s, Event.bindCall s ∈ (perform env).2 → s = env.now + oneDay) ∧
      (∀ ents, env.runPreHook = .ok () →
        env.bind (env.now + oneDay) = .ok ents →
        countBinds (perform env).2 = 1 ∧
        (perform env).2.take 4 =
          [.tomorrowCheck, .preHook, .bindCall (env.now + oneDay),
           .postHook ents])) := by
  constructor
  · intro hcov
    exact perform_enabled_ok env emptyReport [.tomorrowCheck] hc
      (tryBody_covered env cu hv hcu hcov)
  · intro hgap
    have htr : (perform env).2 =
        .tomorrowCheck :: (autoAttach env (env.now + oneDay)).2 := by
      rw [perform_enabled_trace env hc, tryBody_tomorrow env cu hv hcu hgap]
    refine ⟨?_, ?_, ?_⟩
    · rw [htr]
      have := countBinds_autoAttach env (env.now + oneDay)
      simpa [countBinds, isBindEvent] using this
    · intro s hs
      rw [htr] at hs
      rcases List.mem_cons.mp hs with h | h
      · exact absurd h (by simp)
      · exact autoAttach_bind_instant env (env.now + oneDay) s h
    · intro ents hpre hbind
      have h := autoAttach_bind_ok_trace env (env.now + oneDay) ents hpre hbind
      rw [htr]
      constructor
      · simpa [countBinds, isBindEvent] using h.1
      · have h4 : (Event.tomorrowCheck ::
            (autoAttach env (env.now + oneDay)).2).take 4 =
            Event.tomorrowCheck ::
              ((autoAttach env (env.now + oneDay)).2.take 3) := rfl
        rw [h4, h.2]

/-- C3 witness: the amended behaviour at a concrete cycle that is valid
today but lapses within 24 hours, with every collaborator succeeding. -/
theorem c3_witness :
    countBinds (perform envC3wit).2 = 1 ∧
    (perform envC3wit).2.take 4 =
      [.tomorrowCheck, .preHook, .bindCall (envC3wit.now + oneDay),
       .postHook [7]] :=
  ((c3_tomorrow_check envC3wit 1704888000 rfl rfl rfl).2
    (by decide)).2.2 [7] rfl rfl

/-- C5 counterexample: an exception raised by the account lookup
(line 83, before the `try` block) is re-raised to the caller, not
appended to the report, contradicting the claim for the account-lookup
case. -/
theorem c5_counterexample :
    envC5cex.getConsumer = .error (.serviceError 7) ∧
    perform envC5cex = (.raised (.serviceError 7), []) ∧
    (perform envC5cex).1 ≠ PerformResult.report ⟨[], [.serviceError 7]⟩ :=
  ⟨rfl, rfl, by decide⟩

/-- C5 (amended): `perform` re-raises exactly the exceptions of the
account lookup (which precedes the `try` block); any exception escaping
the `try` body — validity check, hook dispatch, bind, certificate
refresh — is appended to the (still empty) report's error list and that
report is returned to the caller. -/
theorem c5_caught_inside_try (env : Env) (e : Err) :
    ((perform env).1 = .raised e ↔ env.getConsumer = .error e) ∧
    (env.getConsumer = .ok (some true) → (tryBody env).1 = .error e →
      (perform env).1 = .report ⟨[], [e]⟩) := by
  constructor
  · constructor
    · intro h
      rcases hc : env.getConsumer with e' | c
      · rw [perform_lookup_error env e' hc] at h
        simp only [PerformResult.raised.injEq] at h
        subst h
        rfl
      · rcases hoff : autohealEnabled c with _ | _
        · rw [perform_disabled env c hc hoff] at h
          simp at h
        · have hc' : env.getConsumer = .ok (some true) := by
            rw [hc, (autohealEnabled_iff c).mp hoff]
          rcases ht : tryBody env with ⟨res, tr⟩
          rcases res with e' | r
          · rw [perform_enabled_error env e' tr hc' ht] at h
            simp at h
          · rw [perform_enabled_ok env r tr hc' ht] at h
            simp at h
    · intro hc
      rw [perform_lookup_error env e hc]
  · intro hc ht1
    rcases ht : tryBody env with ⟨res, tr⟩
    rw [ht] at ht1
    simp only at ht1
    subst ht1
    rw [perform_enabled_error env e tr hc ht]

/-- C5 witness: a concrete enabled cycle whose validity check raises;
the exception lands in the returned report and `perform` does not
raise (it raises exactly when the account lookup does, which here it
does not). -/
theorem c5_witness :
    (perform envC5wit).1 = PerformResult.report ⟨[], [Err.generic 3]⟩ ∧
    ((perform envC5wit).1 = PerformResult.raised (Err.generic 3) ↔
      envC5wit.getConsumer = .error (Err.generic 3)) :=
  ⟨(c5_caught_inside_try envC5wit (Err.generic 3)).2 rfl rfl,
   (c5_caught_inside_try envC5wit (Err.generic 3)).1⟩

/-- C7 counterexample: a cycle whose bind succeeds but whose
`post_auto_attach` dispatch raises never reaches the certificate
refresh, contradicting the claim that the refresh is unconditional
after any successful bind. -/
theorem c7_counterexample :
    envC7cex.bind envC7cex.now = .ok [5] ∧
    Event.bindCall envC7cex.now ∈ (perform envC7cex).2 ∧
    Event.certRefresh ∉ (perform envC7cex).2 :=
  ⟨rfl, by decide, by decide⟩

/-- C7 (amended): in either remediation branch, after a successful bind
the certificate refresh is invoked provided the `post_auto_attach`
dispatch also succeeds (the refresh follows the post hook in program
order, so a raising post hook skips it). -/
theorem c7_refresh_after_bind (env : Env) (ents : List Grant)
    (hc : env.getConsumer = .ok (some true))
    (hpre : env.runPreHook = .ok ())
    (hpost : env.runPostHook ents = .ok ()) :
    (env.isValid = .ok false → env.bind env.now = .ok ents →
      (perform env).2 =
        [.preHook, .bindCall env.now, .postHook ents, .certRefresh]) ∧
    (∀ cu, env.isValid = .ok true → env.compliantUntil = some cu →
      env.now + oneDay > cu → env.bind (env.now + oneDay) = .ok ents →
      (perform env).2 =
        [.tomorrowCheck, .preHook, .bindCall (env.now + oneDay),
         .postHook ents, .certRefresh]) := by
  constructor
  · intro hv hbind
    rw [perform_enabled_trace env hc, tryBody_invalid env hv]
    exact autoAttach_trace_post_ok env env.now ents hpre hbind hpost
  · intro cu hv hcu hgap hbind
    rw [perform_enabled_trace env hc, tryBody_tomorrow env cu hv hcu hgap]
    simp only
    rw [autoAttach_trace_post_ok env (env.now + oneDay) ents hpre hbind hpost]

/-- C7 witness: the refresh follows the bind on a concrete
invalid-today cycle where every collaborator succeeds. -/
theorem c7_witness :
    (perform envC7wit).2 =
      [.preHook, .bindCall envC7wit.now, .postHook [3], .certRefresh] :=
  (c7_refresh_after_bind envC7wit [3] rfl rfl rfl).1 rfl rfl

/-- C9: in the scenario where an enabled cycle is invalid today and the
hooks, the bind and the refresh all succeed, the returned report's
grants are exactly the grants the bind returned and its error list is
empty, with the hooks in pre → bind → post order (the refresh report is
`certUpdateModel`, modelled from the spec since `entcertlib` is not
under `src/`). -/
theorem c9_invalid_today_scenario (env : Env) (ents : List Grant)
    (hc : env.getConsumer = .ok (some true))
    (hv : env.isValid = .ok false)
    (hpre : env.runPreHook = .ok ())
    (hbind : env.bind env.now = .ok ents)
    (hpost : env.runPostHook ents = .ok ())
    (hupd : env.certUpdate = .ok (certUpdateModel ents)) :
    perform env =
      (.report ⟨ents, []⟩,
       [.preHook, .bindCall env.now, .postHook ents, .certRefresh]) := by
  have ht : tryBody env = (.ok (certUpdateModel ents),
      [.preHook, .bindCall env.now, .postHook ents, .certRefresh]) := by
    rw [tryBody_invalid env hv,
      autoAttach_ok env env.now ents (certUpdateModel ents) hpre hbind
        hpost hupd]
  exact perform_enabled_ok env (certUpdateModel ents)
    [.preHook, .bindCall env.now, .postHook ents, .certRefresh] hc ht

/-- C9 witness: the concrete scenario of the spec, at
`now = 2024-01-10T00:00:00Z` with two grants returned by the bind. -/
theorem c9_witness :
    perform envC9wit =
      (.report ⟨[3, 4], []⟩,
       [.preHook, .bindCall 1704844800, .postHook [3, 4],
        .certRefresh]) :=
  c9_invalid_today_scenario envC9wit [3, 4] rfl rfl rfl rfl rfl rfl

end Healinglib
